import Mathlib

/-!
Verification development for `hyperparameter_utils.py`, a random
hyperparameter search utility consisting of two functions:
`sample_hyperparameters` (uniform random choice of each hyperparameter from a
candidate list held in a dictionary) and `train_and_evaluate` (a fixed-epoch
training and validation loop that tracks the minimum mean validation loss).

The embedding is shallow.  Python floats are modelled by `PyFloat` (an exact
rational for the finite case, plus the two infinities and NaN, with IEEE-style
comparison: NaN compares false against everything).  Python dictionaries are
modelled as association lists with first-match lookup.  The global random
source consumed by `random.choice` is modelled as a stream of natural numbers
`g : Nat -> Nat` together with a call counter; call number `k` over a sequence
of length `n > 0` selects index `g k % n`, which covers every possible draw of
the real generator.  Exceptions (`KeyError`, `IndexError`,
`ZeroDivisionError`) are modelled with `Except`.  The two functions thread the
dictionary they read through explicitly (state passing), so that frame
properties (no mutation of the parameter space, the returned configuration is
the input configuration) are stated about the final state.

The external numerical framework (model construction, forward pass, backward
pass, optimizer) is not implemented by the repository; its only influence on
the control flow verified here is the sequence of per-batch validation loss
values returned by `criterion(...).item()`.  That influence is captured by an
oracle `lossItem : Nat -> Nat -> PyFloat` giving the loss of batch `b` of
epoch `e`, and by `numValBatches : Nat`, the value of
`len(validate_loader)` (the number of batches the validation loader yields,
zero exactly when the validation dataset is empty).  The order of the
primitive operations inside the training phase (lines 55-60 of the source) is
captured separately by an event trace.
-/

/-- Python runtime errors that the two functions can raise. -/
inductive PyErr where
  | keyError
  | indexError
  | zeroDivisionError
deriving DecidableEq, Repr

/-- Model of a Python float: exact rational for finite values, plus the two
infinities and NaN. -/
inductive PyFloat where
  | finite (q : ℚ)
  | inf
  | ninf
  | nan
deriving DecidableEq, Repr

namespace PyFloat

/-- Python float comparison `a < b`: any comparison involving NaN is false;
`-inf` is below every finite value and `inf`; `inf` is below nothing. -/
def pyLt : PyFloat → PyFloat → Bool
  | nan, _ => false
  | _, nan => false
  | finite a, finite b => decide (a < b)
  | finite _, inf => true
  | finite _, ninf => false
  | inf, _ => false
  | ninf, ninf => false
  | ninf, finite _ => true
  | ninf, inf => true

/-- Python float addition (`validate_loss += loss.item()`): NaN propagates,
opposite infinities give NaN, an infinity absorbs finite values. -/
def pyAdd : PyFloat → PyFloat → PyFloat
  | nan, _ => nan
  | _, nan => nan
  | inf, ninf => nan
  | ninf, inf => nan
  | inf, _ => inf
  | ninf, _ => ninf
  | finite _, inf => inf
  | finite _, ninf => ninf
  | finite a, finite b => finite (a + b)

/-- Python division of a float by an `int` (`validate_loss /= len(validate_loader)`):
raises `ZeroDivisionError` when the divisor is zero. -/
def pyDivNat (x : PyFloat) (n : Nat) : Except PyErr PyFloat :=
  if n = 0 then .error .zeroDivisionError
  else
    match x with
    | finite q => .ok (finite (q / (n : ℚ)))
    | inf => .ok inf
    | ninf => .ok ninf
    | nan => .ok nan

end PyFloat

/-- Decidable equality of modelled call results, used to evaluate the
embedding on concrete inputs. -/
instance {ε α : Type} [DecidableEq ε] [DecidableEq α] :
    DecidableEq (Except ε α) := fun a b =>
  match a, b with
  | .ok x, .ok y =>
      if h : x = y then .isTrue (by rw [h]) else .isFalse (by simp [h])
  | .error x, .error y =>
      if h : x = y then .isTrue (by rw [h]) else .isFalse (by simp [h])
  | .ok _, .error _ => .isFalse (by simp)
  | .error _, .ok _ => .isFalse (by simp)

/-- Values stored in the hyperparameter dictionaries: Python ints, floats and
lists (a `hidden_layers` candidate is itself a list of ints). -/
inductive PyVal where
  | int (i : Int)
  | float (f : PyFloat)
  | listv (l : List PyVal)

/-- Model of a Python dictionary as an association list with first-match
lookup (Python dictionaries have unique keys, so first match is exact). -/
def PyDict (α : Type) : Type := List (String × α)

/-- Python subscript read `d[k]` as a pure lookup. -/
def dictLookup {α : Type} (d : PyDict α) (k : String) : Option α :=
  match d with
  | [] => none
  | (k2, v) :: rest => if k2 = k then some v else dictLookup rest k

/-- ParameterSpace: dictionary from hyperparameter name to candidate list. -/
def ParamSpace : Type := PyDict (List PyVal)

/-- HyperparameterConfig: dictionary from hyperparameter name to one value. -/
def Config : Type := PyDict PyVal

/-- State-passing computation over a Python dictionary state `σ`: returns a
result or a raised error, together with the state after the call. -/
def PyM (σ α : Type) : Type := σ → Except PyErr α × σ

/-- Sequencing of state-passing computations: a raised error aborts the rest
of the body and surfaces with the state at the raise point. -/
def pbind {σ α β : Type} (m : PyM σ α) (f : α → PyM σ β) : PyM σ β :=
  fun s =>
    match m s with
    | (.ok a, s2) => f a s2
    | (.error e, s2) => (.error e, s2)

/-- Embedding of the Python subscript `param_space[k]` as a state computation:
a read that raises `KeyError` when the key is absent and never changes the
dictionary. -/
def getItem {α : Type} (k : String) : PyM (PyDict α) α :=
  fun d =>
    match dictLookup d k with
    | some v => (.ok v, d)
    | none => (.error .keyError, d)

/-- Embedding of `random.choice(l)` at call number `k` of the random stream
`g`: raises `IndexError` on an empty sequence, otherwise selects the element
at index `g k % l.length` (which ranges over all positions as `g` varies). -/
def randomChoice (g : Nat → Nat) (k : Nat) (l : List PyVal) : Except PyErr PyVal :=
  match l with
  | [] => .error .indexError
  | a :: rest =>
      .ok ((a :: rest).get ⟨g k % (a :: rest).length, Nat.mod_lt _ (Nat.succ_pos rest.length)⟩)

/-- Lift of `randomChoice` into the state-passing layer (consumes entropy from
the shared random source, touches no dictionary). -/
def choiceM (g : Nat → Nat) (k : Nat) (l : List PyVal) : PyM ParamSpace PyVal :=
  fun s => (randomChoice g k l, s)

/-- Embedding of `sample_hyperparameters` (source lines 15-20): the dict
literal evaluates its four entries in order, each entry being a subscript read
of `param_space` followed by one `random.choice` call.  The parameter space is
the threaded state; `g` is the stream of draws of the shared random source. -/
def sample_hyperparameters (ps : ParamSpace) (g : Nat → Nat) :
    Except PyErr Config × ParamSpace :=
  (pbind (getItem "hidden_layers") (fun lh =>
   pbind (choiceM g 0 lh) (fun v1 =>
   pbind (getItem "dropout_rate") (fun ld =>
   pbind (choiceM g 1 ld) (fun v2 =>
   pbind (getItem "learning_rate") (fun ll =>
   pbind (choiceM g 2 ll) (fun v3 =>
   pbind (getItem "batch_size") (fun lb =>
   pbind (choiceM g 3 lb) (fun v4 =>
   fun s => (.ok [("hidden_layers", v1), ("dropout_rate", v2),
                  ("learning_rate", v3), ("batch_size", v4)], s)))))))))) ps

/-- The four hyperparameter keys read by both functions. -/
def requiredKeys : List String :=
  ["hidden_layers", "dropout_rate", "learning_rate", "batch_size"]

/-- Primitive operations executed inside the training phase of
`train_and_evaluate` for one mini-batch (source lines 56-60). -/
inductive TrainEvent where
  | forwardPass
  | lossCompute
  | zeroGrad
  | backwardPass
  | optimStep
deriving DecidableEq, Repr

/-- Event trace of the body of the training mini-batch loop, exactly in
source order (lines 56-60): `predictions = model(X_batch)`,
`loss = criterion(predictions, y_batch)`, `optimizer.zero_grad()`,
`loss.backward()`, `optimizer.step()`. -/
def trainBatchBody : List TrainEvent :=
  [.forwardPass, .lossCompute, .zeroGrad, .backwardPass, .optimStep]

/-- Event trace of one full training phase (the `for X_batch, y_batch in
train_loader` loop, lines 55-60) over `k` mini-batches: the batch body is
executed once per batch, in batch order. -/
def trainingPhaseTrace : Nat → List TrainEvent
  | 0 => []
  | k + 1 => trainingPhaseTrace k ++ trainBatchBody

/-- Mean validation loss of one epoch (source lines 63-69): sum the per-batch
values of `criterion(predictions, y_batch).item()` starting from `0.0`, then
divide by `len(validate_loader)`; the division raises `ZeroDivisionError`
when the loader yields zero batches. -/
def validationLoss (lossItem : Nat → PyFloat) (numValBatches : Nat) :
    Except PyErr PyFloat :=
  PyFloat.pyDivNat
    ((List.range numValBatches).foldl (fun acc b => PyFloat.pyAdd acc (lossItem b))
      (PyFloat.finite 0))
    numValBatches

/-- Best-loss tracker update (source lines 71-72): replace the tracked best
only when the new epoch mean compares strictly less than it. -/
def bestUpdate (best validate_loss : PyFloat) : PyFloat :=
  if PyFloat.pyLt validate_loss best then validate_loss else best

/-- Epoch loop of `train_and_evaluate` (source lines 53-72): `k` epochs remain,
`e` is the current epoch index, `best` is `best_validate_loss`.  Each epoch
computes the mean validation loss (any raised error surfaces immediately) and
then applies the tracker update. -/
def runEpochs (lossItem : Nat → Nat → PyFloat) (numValBatches : Nat) :
    Nat → Nat → PyFloat → Except PyErr PyFloat
  | 0, _, best => .ok best
  | k + 1, e, best =>
      match validationLoss (lossItem e) numValBatches with
      | .error err => .error err
      | .ok m => runEpochs lossItem numValBatches k (e + 1) (bestUpdate best m)

/-- Embedding of `train_and_evaluate` (source lines 22-75).  The configuration
dictionary `params` is the threaded state; the function reads its four keys
(lines 41-44, raising `KeyError` if one is absent), runs the epoch loop with
`best_validate_loss` initialised to `float(\x7binf\x7d)` — `range(num_epochs)`
iterates `num_epochs.toNat` times, which is zero when `num_epochs <= 0` — and
returns the pair of the best loss and the very dictionary it was given
(line 75).  Model construction, the optimizer and the training passes are
external; their effect on the verified control flow is the oracle `lossItem`
giving the validation loss item of each batch of each epoch, and
`numValBatches = len(validate_loader)`. -/
def train_and_evaluate (lossItem : Nat → Nat → PyFloat) (numValBatches : Nat)
    (num_epochs : Int) : PyM Config (PyFloat × Config) :=
  pbind (getItem "hidden_layers") (fun _hl =>
  pbind (getItem "dropout_rate") (fun _dr =>
  pbind (getItem "learning_rate") (fun _lr =>
  pbind (getItem "batch_size") (fun _bs =>
  fun params =>
    match runEpochs lossItem numValBatches num_epochs.toNat 0 PyFloat.inf with
    | .ok best => (.ok (best, params), params)
    | .error err => (.error err, params)))))

/-- Concrete all-singleton parameter space of the determinism scenario. -/
def psSingleton : ParamSpace :=
  [("hidden_layers", [PyVal.listv [PyVal.int 16]]),
   ("dropout_rate", [PyVal.float (PyFloat.finite 0)]),
   ("learning_rate", [PyVal.float (PyFloat.finite (1 / 100))]),
   ("batch_size", [PyVal.int 4])]

/-- Configuration that sampling `psSingleton` must always produce. -/
def cfgSingleton : Config :=
  [("hidden_layers", PyVal.listv [PyVal.int 16]),
   ("dropout_rate", PyVal.float (PyFloat.finite 0)),
   ("learning_rate", PyVal.float (PyFloat.finite (1 / 100))),
   ("batch_size", PyVal.int 4)]

/-- Parameter space whose only entry is an empty `hidden_layers` candidate
list; the other three required keys are absent. -/
def psEmptyHL : ParamSpace := [("hidden_layers", [])]

/-- Helper: sequencing preserves the dictionary state when both parts do. -/
theorem pbind_state {σ α β : Type} (m : PyM σ α) (f : α → PyM σ β)
    (hm : ∀ s, (m s).2 = s) (hf : ∀ a s, (f a s).2 = s) :
    ∀ s, (pbind m f s).2 = s := by
  intro s
  unfold pbind
  rcases hms : m s with ⟨r, s2⟩
  have hs2 : s2 = s := by
    have h2 := hm s
    rw [hms] at h2
    exact h2
  cases r with
  | ok a => exact (hf a s2).trans hs2
  | error e => exact hs2

/-- Helper: a dictionary read leaves the dictionary unchanged. -/
theorem getItem_state {α : Type} (k : String) :
    ∀ d : PyDict α, (getItem k d).2 = d := by
  intro d
  unfold getItem
  cases dictLookup d k <;> rfl

/-- Helper: consuming entropy leaves the dictionary unchanged. -/
theorem choiceM_state (g : Nat → Nat) (k : Nat) (l : List PyVal) :
    ∀ s : ParamSpace, (choiceM g k l s).2 = s :=
  fun _ => rfl

/-- Helper: on a non-empty sequence, `random.choice` succeeds and returns a
member of the sequence, for every random stream and call number. -/
theorem randomChoice_ok_mem (g : Nat → Nat) (k : Nat) (l : List PyVal)
    (h : l ≠ []) : ∃ v, randomChoice g k l = .ok v ∧ v ∈ l := by
  cases l with
  | nil => exact absurd rfl h
  | cons a rest => exact ⟨_, rfl, List.get_mem _ _ _⟩

/-- C2: if each of the four required keys is bound to a non-empty candidate
list, `sample_hyperparameters` returns a configuration whose four fields are
members of the corresponding candidate lists, for every state of the random
source. -/
theorem sample_hyperparameters_membership (ps : ParamSpace) (g : Nat → Nat)
    (lh ld ll lb : List PyVal)
    (h1 : dictLookup ps "hidden_layers" = some lh) (hn1 : lh ≠ [])
    (h2 : dictLookup ps "dropout_rate" = some ld) (hn2 : ld ≠ [])
    (h3 : dictLookup ps "learning_rate" = some ll) (hn3 : ll ≠ [])
    (h4 : dictLookup ps "batch_size" = some lb) (hn4 : lb ≠ []) :
    ∃ v1 v2 v3 v4,
      (sample_hyperparameters ps g).1 =
        .ok [("hidden_layers", v1), ("dropout_rate", v2),
             ("learning_rate", v3), ("batch_size", v4)] ∧
      v1 ∈ lh ∧ v2 ∈ ld ∧ v3 ∈ ll ∧ v4 ∈ lb := by
  obtain ⟨v1, hc1, hm1⟩ := randomChoice_ok_mem g 0 lh hn1
  obtain ⟨v2, hc2, hm2⟩ := randomChoice_ok_mem g 1 ld hn2
  obtain ⟨v3, hc3, hm3⟩ := randomChoice_ok_mem g 2 ll hn3
  obtain ⟨v4, hc4, hm4⟩ := randomChoice_ok_mem g 3 lb hn4
  refine ⟨v1, v2, v3, v4, ?_, hm1, hm2, hm3, hm4⟩
  simp [sample_hyperparameters, pbind, getItem, choiceM, h1, h2, h3, h4,
    hc1, hc2, hc3, hc4]

/-- Witness for C2 at the concrete all-singleton space with the zero random
stream. -/
theorem sample_hyperparameters_membership_witness :
    ∃ v1 v2 v3 v4,
      (sample_hyperparameters psSingleton (fun _ => 0)).1 =
        .ok [("hidden_layers", v1), ("dropout_rate", v2),
             ("learning_rate", v3), ("batch_size", v4)] ∧
      v1 ∈ [PyVal.listv [PyVal.int 16]] ∧
      v2 ∈ [PyVal.float (PyFloat.finite 0)] ∧
      v3 ∈ [PyVal.float (PyFloat.finite (1 / 100))] ∧
      v4 ∈ [PyVal.int 4] :=
  sample_hyperparameters_membership psSingleton (fun _ => 0)
    [PyVal.listv [PyVal.int 16]] [PyVal.float (PyFloat.finite 0)]
    [PyVal.float (PyFloat.finite (1 / 100))] [PyVal.int 4]
    rfl (by simp) rfl (by simp) rfl (by simp) rfl (by simp)

/-- C7: `sample_hyperparameters` never mutates its parameter space: on every
input and every random stream, whether the call succeeds or raises, the
dictionary after the call is the dictionary before it. -/
theorem sample_hyperparameters_no_mutation (ps : ParamSpace) (g : Nat → Nat) :
    (sample_hyperparameters ps g).2 = ps :=
  pbind_state _ _ (getItem_state _)
    (fun lh => pbind_state _ _ (choiceM_state g 0 lh)
    (fun _v1 => pbind_state _ _ (getItem_state _)
    (fun ld => pbind_state _ _ (choiceM_state g 1 ld)
    (fun _v2 => pbind_state _ _ (getItem_state _)
    (fun ll => pbind_state _ _ (choiceM_state g 2 ll)
    (fun _v3 => pbind_state _ _ (getItem_state _)
    (fun lb => pbind_state _ _ (choiceM_state g 3 lb)
    (fun _v4 _s => rfl)))))))) ps

/-- Helper: on two finite values the tracker update keeps the smaller one. -/
theorem bestUpdate_finite (b q : ℚ) :
    bestUpdate (PyFloat.finite b) (PyFloat.finite q) = PyFloat.finite (min b q) := by
  unfold bestUpdate PyFloat.pyLt
  by_cases h : q < b
  · simp [h, min_eq_right (le_of_lt h)]
  · simp [h, min_eq_left (le_of_not_lt h)]

/-- Helper: the first finite epoch mean always replaces the initial infinity. -/
theorem bestUpdate_inf_finite (q : ℚ) :
    bestUpdate PyFloat.inf (PyFloat.finite q) = PyFloat.finite q := rfl

/-- Helper: a NaN epoch mean never replaces the tracked best, whatever it is,
because NaN compares strictly less than nothing. -/
theorem bestUpdate_nan (best : PyFloat) : bestUpdate best PyFloat.nan = best := by
  cases best <;> rfl

/-- Helper: when every remaining epoch has a finite mean, the epoch loop
started at a finite best computes the running minimum of those means. -/
theorem runEpochs_finite (lossItem : Nat → Nat → PyFloat) (nb : Nat)
    (q : Nat → ℚ) (k : Nat) :
    ∀ (e : Nat) (b : ℚ),
      (∀ i, e ≤ i → i < e + k →
        validationLoss (lossItem i) nb = .ok (PyFloat.finite (q i))) →
      runEpochs lossItem nb k e (PyFloat.finite b) =
        .ok (PyFloat.finite
          ((List.range' e k).foldl (fun acc i => min acc (q i)) b)) := by
  induction k with
  | zero => intro e b _; rfl
  | succ n ih =>
    intro e b hq
    rw [runEpochs, hq e (le_refl e) (by omega)]
    show runEpochs lossItem nb n (e + 1)
        (bestUpdate (PyFloat.finite b) (PyFloat.finite (q e))) =
      .ok (PyFloat.finite
        ((List.range' e (n + 1)).foldl (fun acc i => min acc (q i)) b))
    rw [bestUpdate_finite, List.range'_succ]
    exact ih (e + 1) (min b (q e)) (fun i h1 h2 => hq i (by omega) (by omega))

/-- Helper: with at least one epoch, all of finite mean, the loop started at
infinity returns the minimum of the means, seeded by the first epoch. -/
theorem runEpochs_inf (lossItem : Nat → Nat → PyFloat) (nb : Nat)
    (q : Nat → ℚ) (n : Nat)
    (hq : ∀ i, i < n + 1 →
      validationLoss (lossItem i) nb = .ok (PyFloat.finite (q i))) :
    runEpochs lossItem nb (n + 1) 0 PyFloat.inf =
      .ok (PyFloat.finite
        ((List.range' 1 n).foldl (fun acc i => min acc (q i)) (q 0))) := by
  rw [runEpochs, hq 0 (by omega)]
  show runEpochs lossItem nb n (0 + 1)
      (bestUpdate PyFloat.inf (PyFloat.finite (q 0))) =
    .ok (PyFloat.finite
      ((List.range' 1 n).foldl (fun acc i => min acc (q i)) (q 0)))
  rw [bestUpdate_inf_finite]
  exact runEpochs_finite lossItem nb q n 1 (q 0)
    (fun i h1 h2 => hq i (by omega))

/-- Helper: when every remaining epoch has a NaN mean, the epoch loop never
changes the tracked best. -/
theorem runEpochs_nan (lossItem : Nat → Nat → PyFloat) (nb : Nat) (k : Nat) :
    ∀ (e : Nat) (best : PyFloat),
      (∀ i, e ≤ i → i < e + k →
        validationLoss (lossItem i) nb = .ok PyFloat.nan) →
      runEpochs lossItem nb k e best = .ok best := by
  induction k with
  | zero => intro e best _; rfl
  | succ n ih =>
    intro e best hq
    rw [runEpochs, hq e (le_refl e) (by omega)]
    show runEpochs lossItem nb n (e + 1) (bestUpdate best PyFloat.nan) =
      .ok best
    rw [bestUpdate_nan]
    exact ih (e + 1) best (fun i h1 h2 => hq i (by omega) (by omega))

/-- Helper: averaging over zero validation batches raises
`ZeroDivisionError`. -/
theorem validationLoss_zero_batches (lossItem : Nat → PyFloat) :
    validationLoss lossItem 0 = .error PyErr.zeroDivisionError := rfl

/-- Helper: a running minimum is bounded by its start value. -/
theorem foldl_min_le_start (q : Nat → ℚ) (l : List Nat) :
    ∀ b : ℚ, l.foldl (fun acc i => min acc (q i)) b ≤ b := by
  induction l with
  | nil => intro b; exact le_refl b
  | cons a t ih =>
    intro b
    exact le_trans (ih (min b (q a))) (min_le_left b (q a))

/-- Helper: a running minimum is bounded by every scanned value. -/
theorem foldl_min_le_mem (q : Nat → ℚ) (l : List Nat) :
    ∀ (b : ℚ) (i : Nat), i ∈ l →
      l.foldl (fun acc i => min acc (q i)) b ≤ q i := by
  induction l with
  | nil => intro b i hi; cases hi
  | cons a t ih =>
    intro b i hi
    rcases List.mem_cons.mp hi with h | h
    · subst h
      exact le_trans (foldl_min_le_start q t (min b (q i)))
        (min_le_right b (q i))
    · exact ih (min b (q a)) i h

/-- Helper: a running minimum is its start value or one of the scanned
values. -/
theorem foldl_min_eq_start_or_mem (q : Nat → ℚ) (l : List Nat) :
    ∀ b : ℚ, l.foldl (fun acc i => min acc (q i)) b = b ∨
      ∃ i, i ∈ l ∧ l.foldl (fun acc i => min acc (q i)) b = q i := by
  induction l with
  | nil => intro b; exact Or.inl rfl
  | cons a t ih =>
    intro b
    rcases ih (min b (q a)) with h | ⟨i, hi, h⟩
    · rcases min_choice b (q a) with hm | hm
      · exact Or.inl (by rw [List.foldl_cons, h, hm])
      · exact Or.inr ⟨a, List.mem_cons_self a t, by rw [List.foldl_cons, h, hm]⟩
    · exact Or.inr ⟨i, List.mem_cons_of_mem a hi, by rw [List.foldl_cons, h]⟩

/-- Helper: when the four keys are present and the epoch loop succeeds,
`train_and_evaluate` returns the loop result paired with the untouched input
dictionary. -/
theorem train_and_evaluate_ok (lossItem : Nat → Nat → PyFloat) (nb : Nat)
    (num_epochs : Int) (ps : Config) (best : PyFloat)
    (k1 : (dictLookup ps "hidden_layers").isSome = true)
    (k2 : (dictLookup ps "dropout_rate").isSome = true)
    (k3 : (dictLookup ps "learning_rate").isSome = true)
    (k4 : (dictLookup ps "batch_size").isSome = true)
    (h : runEpochs lossItem nb num_epochs.toNat 0 PyFloat.inf = .ok best) :
    train_and_evaluate lossItem nb num_epochs ps = (.ok (best, ps), ps) := by
  rcases Option.isSome_iff_exists.mp k1 with ⟨v1, hv1⟩
  rcases Option.isSome_iff_exists.mp k2 with ⟨v2, hv2⟩
  rcases Option.isSome_iff_exists.mp k3 with ⟨v3, hv3⟩
  rcases Option.isSome_iff_exists.mp k4 with ⟨v4, hv4⟩
  simp [train_and_evaluate, pbind, getItem, hv1, hv2, hv3, hv4, h]

/-- Helper: when the four keys are present and the epoch loop raises, the
error surfaces from `train_and_evaluate` with the dictionary untouched. -/
theorem train_and_evaluate_err (lossItem : Nat → Nat → PyFloat) (nb : Nat)
    (num_epochs : Int) (ps : Config) (err : PyErr)
    (k1 : (dictLookup ps "hidden_layers").isSome = true)
    (k2 : (dictLookup ps "dropout_rate").isSome = true)
    (k3 : (dictLookup ps "learning_rate").isSome = true)
    (k4 : (dictLookup ps "batch_size").isSome = true)
    (h : runEpochs lossItem nb num_epochs.toNat 0 PyFloat.inf = .error err) :
    train_and_evaluate lossItem nb num_epochs ps = (.error err, ps) := by
  rcases Option.isSome_iff_exists.mp k1 with ⟨v1, hv1⟩
  rcases Option.isSome_iff_exists.mp k2 with ⟨v2, hv2⟩
  rcases Option.isSome_iff_exists.mp k3 with ⟨v3, hv3⟩
  rcases Option.isSome_iff_exists.mp k4 with ⟨v4, hv4⟩
  simp [train_and_evaluate, pbind, getItem, hv1, hv2, hv3, hv4, h]

/-- C1: with at least one epoch and every epoch mean validation loss finite,
`train_and_evaluate` returns the minimum of the per-epoch means (the tracker
starts at positive infinity and is replaced by the first finite mean): the
returned loss is one of the means and is below every mean; for one epoch it
is that single mean. -/
theorem train_and_evaluate_min_validation_loss
    (lossItem : Nat → Nat → PyFloat) (nb : Nat) (num_epochs : Int)
    (ps : Config) (q : Nat → ℚ)
    (k1 : (dictLookup ps "hidden_layers").isSome = true)
    (k2 : (dictLookup ps "dropout_rate").isSome = true)
    (k3 : (dictLookup ps "learning_rate").isSome = true)
    (k4 : (dictLookup ps "batch_size").isSome = true)
    (hn : 1 ≤ num_epochs)
    (hq : ∀ e, e < num_epochs.toNat →
      validationLoss (lossItem e) nb = .ok (PyFloat.finite (q e))) :
    ∃ e0, e0 < num_epochs.toNat ∧
      train_and_evaluate lossItem nb num_epochs ps =
        (.ok (PyFloat.finite (q e0), ps), ps) ∧
      ∀ e, e < num_epochs.toNat → q e0 ≤ q e := by
  obtain ⟨m, hm⟩ : ∃ m, num_epochs.toNat = m + 1 :=
    ⟨num_epochs.toNat - 1, by omega⟩
  have heval : train_and_evaluate lossItem nb num_epochs ps =
      (.ok (PyFloat.finite
        ((List.range' 1 m).foldl (fun acc i => min acc (q i)) (q 0)), ps), ps) := by
    refine train_and_evaluate_ok lossItem nb num_epochs ps _ k1 k2 k3 k4 ?_
    rw [hm]
    exact runEpochs_inf lossItem nb q m (fun i hi => hq i (by omega))
  have hmin : ∀ e, e < num_epochs.toNat →
      (List.range' 1 m).foldl (fun acc i => min acc (q i)) (q 0) ≤ q e := by
    intro e he
    rcases Nat.eq_zero_or_pos e with rfl | hep
    · exact foldl_min_le_start q (List.range' 1 m) (q 0)
    · exact foldl_min_le_mem q (List.range' 1 m) (q 0) e
        (List.mem_range'_1.mpr ⟨hep, by omega⟩)
  rcases foldl_min_eq_start_or_mem q (List.range' 1 m) (q 0) with h0 | ⟨i, hi, hqi⟩
  · refine ⟨0, by omega, ?_, ?_⟩
    · rw [← h0]; exact heval
    · intro e he
      rw [← h0]
      exact hmin e he
  · have hib := List.mem_range'_1.mp hi
    refine ⟨i, by omega, ?_, ?_⟩
    · rw [← hqi]; exact heval
    · intro e he
      rw [← hqi]
      exact hmin e he

/-- C3: with at least one epoch and a validation loader yielding zero
batches, the first epoch average raises `ZeroDivisionError`, which is not
handled internally and surfaces to the caller. -/
theorem train_and_evaluate_zero_val_batches
    (lossItem : Nat → Nat → PyFloat) (num_epochs : Int) (ps : Config)
    (k1 : (dictLookup ps "hidden_layers").isSome = true)
    (k2 : (dictLookup ps "dropout_rate").isSome = true)
    (k3 : (dictLookup ps "learning_rate").isSome = true)
    (k4 : (dictLookup ps "batch_size").isSome = true)
    (hn : 1 ≤ num_epochs) :
    train_and_evaluate lossItem 0 num_epochs ps =
      (.error PyErr.zeroDivisionError, ps) := by
  refine train_and_evaluate_err lossItem 0 num_epochs ps _ k1 k2 k3 k4 ?_
  obtain ⟨m, hm⟩ : ∃ m, num_epochs.toNat = m + 1 :=
    ⟨num_epochs.toNat - 1, by omega⟩
  rw [hm, runEpochs, validationLoss_zero_batches]

/-- C6: whenever `train_and_evaluate` completes, the configuration it returns
is the very dictionary passed in, and the dictionary after the call is the
dictionary before it: the function never writes to its `params` input. -/
theorem train_and_evaluate_returns_input_config
    (lossItem : Nat → Nat → PyFloat) (nb : Nat) (num_epochs : Int)
    (ps : Config) (best : PyFloat) (cfg st : Config)
    (h : train_and_evaluate lossItem nb num_epochs ps = (.ok (best, cfg), st)) :
    cfg = ps ∧ st = ps := by
  rcases h1 : dictLookup ps "hidden_layers" with _ | v1
  · simp [train_and_evaluate, pbind, getItem, h1] at h
  · rcases h2 : dictLookup ps "dropout_rate" with _ | v2
    · simp [train_and_evaluate, pbind, getItem, h1, h2] at h
    · rcases h3 : dictLookup ps "learning_rate" with _ | v3
      · simp [train_and_evaluate, pbind, getItem, h1, h2, h3] at h
      · rcases h4 : dictLookup ps "batch_size" with _ | v4
        · simp [train_and_evaluate, pbind, getItem, h1, h2, h3, h4] at h
        · rcases h5 : runEpochs lossItem nb num_epochs.toNat 0 PyFloat.inf
            with err | b
          · simp [train_and_evaluate, pbind, getItem, h1, h2, h3, h4, h5] at h
          · simp [train_and_evaluate, pbind, getItem, h1, h2, h3, h4, h5] at h
            exact ⟨h.1.2.symm, h.2.symm⟩

/-- C9: with a non-positive epoch count the epoch loop runs zero times, and
`train_and_evaluate` returns the initial positive infinity with the unchanged
configuration. -/
theorem train_and_evaluate_nonpos_epochs
    (lossItem : Nat → Nat → PyFloat) (nb : Nat) (num_epochs : Int)
    (ps : Config)
    (k1 : (dictLookup ps "hidden_layers").isSome = true)
    (k2 : (dictLookup ps "dropout_rate").isSome = true)
    (k3 : (dictLookup ps "learning_rate").isSome = true)
    (k4 : (dictLookup ps "batch_size").isSome = true)
    (hn : num_epochs ≤ 0) :
    train_and_evaluate lossItem nb num_epochs ps =
      (.ok (PyFloat.inf, ps), ps) := by
  refine train_and_evaluate_ok lossItem nb num_epochs ps _ k1 k2 k3 k4 ?_
  have h0 : num_epochs.toNat = 0 := by omega
  rw [h0]
  rfl

/-- C10: the tracker updates only on a strict comparison win, NaN wins
against nothing, so an all-NaN run of epochs leaves the tracker at the
initial positive infinity, which is returned. -/
theorem train_and_evaluate_nan_epochs
    (lossItem : Nat → Nat → PyFloat) (nb : Nat) (num_epochs : Int)
    (ps : Config)
    (k1 : (dictLookup ps "hidden_layers").isSome = true)
    (k2 : (dictLookup ps "dropout_rate").isSome = true)
    (k3 : (dictLookup ps "learning_rate").isSome = true)
    (k4 : (dictLookup ps "batch_size").isSome = true)
    (hq : ∀ e, e < num_epochs.toNat →
      validationLoss (lossItem e) nb = .ok PyFloat.nan) :
    (∀ best, bestUpdate best PyFloat.nan = best) ∧
    train_and_evaluate lossItem nb num_epochs ps =
      (.ok (PyFloat.inf, ps), ps) := by
  refine ⟨bestUpdate_nan, ?_⟩
  refine train_and_evaluate_ok lossItem nb num_epochs ps _ k1 k2 k3 k4 ?_
  exact runEpochs_nan lossItem nb num_epochs.toNat 0 PyFloat.inf
    (fun i h1 h2 => hq i (by omega))

/-- Helper: one validation batch of constant loss 1 gives epoch mean 1. -/
theorem validationLoss_one_const :
    validationLoss (fun _ => PyFloat.finite 1) 1 = .ok (PyFloat.finite 1) := by
  simp [validationLoss, PyFloat.pyAdd, PyFloat.pyDivNat, List.range_succ, List.range_zero]

/-- Helper: one validation batch of NaN loss gives epoch mean NaN. -/
theorem validationLoss_one_nan :
    validationLoss (fun _ => PyFloat.nan) 1 = .ok PyFloat.nan := by
  simp [validationLoss, PyFloat.pyAdd, PyFloat.pyDivNat, List.range_succ, List.range_zero]

/-- Helper: one epoch of constant loss 1 drives the tracker from infinity
to 1. -/
theorem runEpochs_one_const :
    runEpochs (fun _ _ => PyFloat.finite 1) 1 1 0 PyFloat.inf =
      .ok (PyFloat.finite 1) := by
  simp [runEpochs, validationLoss_one_const, bestUpdate_inf_finite]

/-- Witness for C1: one epoch of constant finite loss 1 over one batch. -/
theorem train_and_evaluate_min_validation_loss_witness :
    ((1 : Int) ≤ 1 ∧
      ∀ e, e < (1 : Int).toNat →
        validationLoss ((fun _ _ => PyFloat.finite 1) e) 1 =
          .ok (PyFloat.finite 1)) ∧
    ∃ e0, e0 < (1 : Int).toNat ∧
      train_and_evaluate (fun _ _ => PyFloat.finite 1) 1 1 cfgSingleton =
        (.ok (PyFloat.finite 1, cfgSingleton), cfgSingleton) ∧
      ∀ e, e < (1 : Int).toNat → (1 : ℚ) ≤ (1 : ℚ) :=
  ⟨⟨le_refl 1, fun _ _ => validationLoss_one_const⟩,
    train_and_evaluate_min_validation_loss (fun _ _ => PyFloat.finite 1) 1 1
      cfgSingleton (fun _ => 1) rfl rfl rfl rfl (le_refl 1)
      (fun _ _ => validationLoss_one_const)⟩

/-- Witness for C3: one epoch over a validation loader with zero batches. -/
theorem train_and_evaluate_zero_val_batches_witness :
    (1 : Int) ≤ 1 ∧
    train_and_evaluate (fun _ _ => PyFloat.finite 1) 0 1 cfgSingleton =
      (.error PyErr.zeroDivisionError, cfgSingleton) :=
  ⟨le_refl 1, train_and_evaluate_zero_val_batches (fun _ _ => PyFloat.finite 1)
    1 cfgSingleton rfl rfl rfl rfl (le_refl 1)⟩

/-- Witness for C6: a completing one-epoch call returns its own input
configuration. -/
theorem train_and_evaluate_returns_input_config_witness :
    train_and_evaluate (fun _ _ => PyFloat.finite 1) 1 1 cfgSingleton =
      (.ok (PyFloat.finite 1, cfgSingleton), cfgSingleton) ∧
    (cfgSingleton = cfgSingleton ∧ cfgSingleton = cfgSingleton) := by
  have heval : train_and_evaluate (fun _ _ => PyFloat.finite 1) 1 1 cfgSingleton =
      (.ok (PyFloat.finite 1, cfgSingleton), cfgSingleton) :=
    train_and_evaluate_ok (fun _ _ => PyFloat.finite 1) 1 1 cfgSingleton
      (PyFloat.finite 1) rfl rfl rfl rfl runEpochs_one_const
  exact ⟨heval, train_and_evaluate_returns_input_config
    (fun _ _ => PyFloat.finite 1) 1 1 cfgSingleton (PyFloat.finite 1)
    cfgSingleton cfgSingleton heval⟩

/-- Witness for C9: a zero-epoch call returns positive infinity. -/
theorem train_and_evaluate_nonpos_epochs_witness :
    (0 : Int) ≤ 0 ∧
    train_and_evaluate (fun _ _ => PyFloat.finite 1) 1 0 cfgSingleton =
      (.ok (PyFloat.inf, cfgSingleton), cfgSingleton) :=
  ⟨le_refl 0, train_and_evaluate_nonpos_epochs (fun _ _ => PyFloat.finite 1)
    1 0 cfgSingleton rfl rfl rfl rfl (le_refl 0)⟩

/-- Witness for C10: one epoch whose mean validation loss is NaN. -/
theorem train_and_evaluate_nan_epochs_witness :
    (∀ e, e < (1 : Int).toNat →
      validationLoss ((fun _ _ => PyFloat.nan) e) 1 = .ok PyFloat.nan) ∧
    ((∀ best, bestUpdate best PyFloat.nan = best) ∧
      train_and_evaluate (fun _ _ => PyFloat.nan) 1 1 cfgSingleton =
        (.ok (PyFloat.inf, cfgSingleton), cfgSingleton)) :=
  ⟨fun _ _ => validationLoss_one_nan,
    train_and_evaluate_nan_epochs (fun _ _ => PyFloat.nan) 1 1
      cfgSingleton rfl rfl rfl rfl (fun _ _ => validationLoss_one_nan)⟩

/-- Helper: the training-phase trace of `k` batches has five events per
batch. -/
theorem trainingPhaseTrace_length (k : Nat) :
    (trainingPhaseTrace k).length = 5 * k := by
  induction k with
  | zero => rfl
  | succ n ih =>
    simp only [trainingPhaseTrace, List.length_append, ih, trainBatchBody,
      List.length_cons, List.length_nil]
    omega

/-- C4 counterexample: already in a training phase of a single mini-batch,
the primitive steps do not occur in the claimed order (predictions, loss,
backward, optimizer step, then gradient reset): the code resets gradients
before the backward pass, not after the optimizer step. -/
theorem training_order_counterexample :
    trainingPhaseTrace 1 ≠
      [TrainEvent.forwardPass, TrainEvent.lossCompute, TrainEvent.backwardPass,
       TrainEvent.optimStep, TrainEvent.zeroGrad] := by
  decide

/-- C4 (amended): in every training phase of `train_and_evaluate`, for each
mini-batch the steps occur in the order: compute predictions, compute the
loss via the loss function, reset accumulated gradients, propagate gradients
backward through the model, then apply one optimizer step. -/
theorem training_order (k i : Nat) (h : i < k) :
    ((trainingPhaseTrace k).drop (5 * i)).take 5 =
      [TrainEvent.forwardPass, TrainEvent.lossCompute, TrainEvent.zeroGrad,
       TrainEvent.backwardPass, TrainEvent.optimStep] := by
  induction k with
  | zero => omega
  | succ n ih =>
    show ((trainingPhaseTrace n ++ trainBatchBody).drop (5 * i)).take 5 = _
    by_cases hi : i < n
    · rw [List.drop_append_of_le_length
        (by rw [trainingPhaseTrace_length]; omega)]
      rw [List.take_append_of_le_length
        (by rw [List.length_drop, trainingPhaseTrace_length]; omega)]
      exact ih hi
    · have hik : i = n := by omega
      subst hik
      have hlen : 5 * i = (trainingPhaseTrace i).length := by
        rw [trainingPhaseTrace_length]
      rw [hlen, List.drop_left]
      rfl

/-- Witness for the amended C4 at a two-batch training phase, second batch. -/
theorem training_order_witness :
    1 < 2 ∧
    ((trainingPhaseTrace 2).drop (5 * 1)).take 5 =
      [TrainEvent.forwardPass, TrainEvent.lossCompute, TrainEvent.zeroGrad,
       TrainEvent.backwardPass, TrainEvent.optimStep] :=
  ⟨by decide, training_order 2 1 (by decide)⟩

/-- C5 counterexample: `psEmptyHL` lacks the required key `dropout_rate`
(and two others), yet the call fails with `IndexError` — raised by
`random.choice` on the empty `hidden_layers` candidate list before the
missing key is ever looked up — not with a `KeyError`-equivalent. -/
theorem sample_missing_key_counterexample :
    dictLookup psEmptyHL "dropout_rate" = none ∧
    (sample_hyperparameters psEmptyHL (fun _ => 0)).1 =
      Except.error PyErr.indexError ∧
    (sample_hyperparameters psEmptyHL (fun _ => 0)).1 ≠
      Except.error PyErr.keyError := by
  refine ⟨rfl, rfl, ?_⟩
  intro h
  have h2 : (Except.error PyErr.indexError : Except PyErr Config) =
      Except.error PyErr.keyError := h
  simp at h2

/-- C5 (amended): whenever at least one of the four required keys is absent,
`sample_hyperparameters` fails with an error and never returns a
configuration — for every parameter space and every random stream; if
moreover every required key that is present maps to a non-empty candidate
list, the error is the `KeyError`-equivalent lookup error. -/
theorem sample_hyperparameters_missing_key (ps : ParamSpace) (g : Nat → Nat)
    (hmiss : dictLookup ps "hidden_layers" = none ∨
      dictLookup ps "dropout_rate" = none ∨
      dictLookup ps "learning_rate" = none ∨
      dictLookup ps "batch_size" = none) :
    (∀ cfg, (sample_hyperparameters ps g).1 ≠ Except.ok cfg) ∧
    ((∀ k l, k ∈ requiredKeys → dictLookup ps k = some l → l ≠ []) →
      (sample_hyperparameters ps g).1 = Except.error PyErr.keyError) := by
  constructor
  · intro cfg hok
    rcases h1 : dictLookup ps "hidden_layers" with _ | lh
    · simp [sample_hyperparameters, pbind, getItem, choiceM, h1] at hok
    · rcases hc1 : randomChoice g 0 lh with e1 | v1
      · simp [sample_hyperparameters, pbind, getItem, choiceM, h1, hc1] at hok
      · rcases h2 : dictLookup ps "dropout_rate" with _ | ld
        · simp [sample_hyperparameters, pbind, getItem, choiceM, h1, hc1,
            h2] at hok
        · rcases hc2 : randomChoice g 1 ld with e2 | v2
          · simp [sample_hyperparameters, pbind, getItem, choiceM, h1, hc1,
              h2, hc2] at hok
          · rcases h3 : dictLookup ps "learning_rate" with _ | ll
            · simp [sample_hyperparameters, pbind, getItem, choiceM, h1, hc1,
                h2, hc2, h3] at hok
            · rcases hc3 : randomChoice g 2 ll with e3 | v3
              · simp [sample_hyperparameters, pbind, getItem, choiceM, h1,
                  hc1, h2, hc2, h3, hc3] at hok
              · rcases h4 : dictLookup ps "batch_size" with _ | lb
                · simp [sample_hyperparameters, pbind, getItem, choiceM, h1,
                    hc1, h2, hc2, h3, hc3, h4] at hok
                · rcases hmiss with hm | hm | hm | hm <;> simp_all
  · intro hne
    rcases h1 : dictLookup ps "hidden_layers" with _ | lh
    · simp [sample_hyperparameters, pbind, getItem, choiceM, h1]
    · obtain ⟨v1, hc1, -⟩ :=
        randomChoice_ok_mem g 0 lh (hne _ _ (by simp [requiredKeys]) h1)
      rcases h2 : dictLookup ps "dropout_rate" with _ | ld
      · simp [sample_hyperparameters, pbind, getItem, choiceM, h1, hc1, h2]
      · obtain ⟨v2, hc2, -⟩ :=
          randomChoice_ok_mem g 1 ld (hne _ _ (by simp [requiredKeys]) h2)
        rcases h3 : dictLookup ps "learning_rate" with _ | ll
        · simp [sample_hyperparameters, pbind, getItem, choiceM, h1, hc1, h2,
            hc2, h3]
        · obtain ⟨v3, hc3, -⟩ :=
            randomChoice_ok_mem g 2 ll (hne _ _ (by simp [requiredKeys]) h3)
          rcases h4 : dictLookup ps "batch_size" with _ | lb
          · simp [sample_hyperparameters, pbind, getItem, choiceM, h1, hc1,
              h2, hc2, h3, hc3, h4]
          · rcases hmiss with hm | hm | hm | hm <;> simp_all

/-- Witness for the amended C5: at `psEmptyHL` (a present key with an empty
list, three keys missing) the call never returns a configuration, and at the
empty parameter space the additional non-emptiness condition holds vacuously
and the error is the `KeyError`-equivalent. -/
theorem sample_hyperparameters_missing_key_witness :
    dictLookup psEmptyHL "dropout_rate" = none ∧
    (∀ cfg, (sample_hyperparameters psEmptyHL (fun _ => 0)).1 ≠
      Except.ok cfg) ∧
    (sample_hyperparameters ([] : ParamSpace) (fun _ => 0)).1 =
      Except.error PyErr.keyError :=
  ⟨rfl,
    (sample_hyperparameters_missing_key psEmptyHL (fun _ => 0)
      (Or.inr (Or.inl rfl))).1,
    (sample_hyperparameters_missing_key [] (fun _ => 0) (Or.inl rfl)).2
      (fun _k _l _hk h => by simp [dictLookup] at h)⟩

/-- C8: sampling the all-singleton parameter space returns exactly the
singleton configuration, for every state of the random source, and leaves the
space unchanged. -/
theorem sample_hyperparameters_singleton (g : Nat → Nat) :
    sample_hyperparameters psSingleton g = (.ok cfgSingleton, psSingleton) := by
  simp [sample_hyperparameters, pbind, getItem, choiceM, randomChoice,
    psSingleton, cfgSingleton, dictLookup, Nat.mod_one]
